import Mathlib

set_option linter.unusedVariables false

/-!
# Verification of the realzen-agent repository

Shallow embedding of the two source files of the repository:

* `src/realzen_agent/graph.py` — the routing step `route_model_output` of the
  agent loop (messages, assistant messages carrying tool-call lists, routing to
  the `tools` node or the `__end__` terminal).
* `src/realzen_agent/utils/tools.py` — the two leaf tools:
  `search_for_properties_by_location` (query construction via Python dict
  merge, environment lookup of the API key, one HTTP GET, truncation of the
  `results` array) and `calculate_cash_on_cash` (a closed-form rational
  formula; Python floats are modelled as exact rationals, and Python's
  `ZeroDivisionError` on a zero divisor is made explicit via `Except`).

External effects (environment variables, the network, the upstream JSON body)
are passed as explicit inputs; Python dict construction and `{**a, **b}` merge
are modelled as an association list with last-write-wins lookup.
-/

namespace Realzen

/-! ## Data model of the conversation (graph.py) -/

/-- A tool call request carried by an assistant message:
`{tool name, argument mapping}`. -/
structure ToolCall where
  name : String
  args : List (String × String)
deriving DecidableEq

/-- A conversation message, tagged as in langchain: human, system, assistant
(`AIMessage`, carrying a tool-call list) or tool result. -/
inductive Message where
  | human (content : String)
  | system (content : String)
  | ai (content : String) (tool_calls : List ToolCall)
  | toolResult (content : String)
deriving DecidableEq

/-- Conversation state: the ordered message sequence. -/
structure State where
  messages : List Message
deriving DecidableEq

/-- Errors the routing step can raise: `messages[-1]` on an empty list raises
`IndexError`; a last message that is not an `AIMessage` raises the
`ValueError` the spec calls `MalformedModelOutput`. -/
inductive RouteError where
  | indexError
  | malformedModelOutput
deriving DecidableEq

/-- Embedding of `route_model_output` (graph.py lines 30–50): read
`state.messages[-1]`; if it is not an `AIMessage`, raise; if its
`tool_calls` list is empty return `"__end__"`, else return `"tools"`. -/
def route_model_output (state : State) : Except RouteError String :=
  match state.messages.getLast? with
  | Option.none => Except.error RouteError.indexError
  | Option.some last =>
    match last with
    | Message.ai _ tool_calls =>
      if tool_calls = [] then Except.ok "__end__" else Except.ok "tools"
    | _ => Except.error RouteError.malformedModelOutput

/-! ## Query construction (tools.py lines 39–60)

A Python dict built by successive assignment and `{**a, **b}` merge is
modelled as an association list in insertion order, whose lookup returns the
value of the LAST binding of a key (later bindings override earlier ones,
exactly as later `**` splats override earlier keys). -/

/-- Lookup in an association list where the last binding of a key wins,
matching Python dict update/merge semantics. -/
def qlookup : List (String × String) → String → Option String
  | [], _ => Option.none
  | p :: rest, k =>
    match qlookup rest k with
    | Option.some v => Option.some v
    | Option.none => if p.1 = k then Option.some p.2 else Option.none

/-- The seven enumerated property-type flags, in the order the source
initialises them all to `"false"`. -/
def sevenFlags : List String :=
  ["isSingleFamily", "isMultiFamily", "isCondo", "isTownhouse",
   "isApartment", "isLotLand", "isManufactured"]

/-- The `property_types` dict: all seven flags start `"false"`, then the loop
`for _type in types: property_types[_type] = "true"` binds every element of
`types` to `"true"` (overriding, or adding a new key). -/
def property_types (types : List String) : List (String × String) :=
  sevenFlags.map (fun f => (f, "false")) ++ types.map (fun t => (t, "true"))

/-- The Python default `types = ("isSingleFamily",)`. -/
def defaultTypes : List String := ["isSingleFamily"]

/-- The outgoing `querystring` dict:
`{"location": location, "output": "json", **property_types, **kwargs}`. -/
def querystring (location : String) (types : List String)
    (kwargs : List (String × String)) : List (String × String) :=
  [("location", location), ("output", "json")] ++ property_types types ++ kwargs

/-- Python iteration over a `str` yields its characters as one-character
strings; passing a bare string as `types` iterates it this way. -/
def pyStringElements (s : String) : List String :=
  s.data.map (fun c => String.mk [c])

/-! ## The search pipeline (tools.py lines 51–69)

The effectful steps are explicit inputs: `apiKey` is the environment's
`RAPIDAPI_KEY` (absent ⇒ `KeyError` on `os.environ`, the spec's
`AuthConfigurationError`); `net` is the outcome of `requests.get` followed by
JSON parsing, carrying the optional `results` field of the body (a network
failure is the spec's `TransportError`); a parsed body without `results`
raises `KeyError`, the spec's `UpstreamSchemaError`. Result records are
opaque (`α`). -/

/-- The error taxonomy of the search tool, in the spec's names. -/
inductive SearchError where
  | authConfiguration
  | transport
  | upstreamSchema
deriving DecidableEq

/-- Embedding of the effectful tail of `search_for_properties_by_location`:
build the query, read the API key from the environment, perform the GET, read
`response.json()["results"]`, truncate to `limit` entries. -/
def search_for_properties_by_location (α : Type) (location : String)
    (types : List String) (kwargs : List (String × String))
    (apiKey : Option String) (net : Except Unit (Option (List α)))
    (limit : Nat) : Except SearchError (List α) :=
  let _qs := querystring location types kwargs
  match apiKey with
  | Option.none => Except.error SearchError.authConfiguration
  | Option.some _ =>
    match net with
    | Except.error _ => Except.error SearchError.transport
    | Except.ok body =>
      match body with
      | Option.none => Except.error SearchError.upstreamSchema
      | Option.some results => Except.ok (results.take limit)

/-! ## The cash-on-cash calculator (tools.py lines 72–107)

Python floats are modelled as exact rationals. Python's `/` raises
`ZeroDivisionError` when the divisor equals zero, so each division of the
source carries an explicit zero check, in evaluation order: first the
amortization denominator `(1+r)^360 - 1`, then `down_payment_amount`. The
source's `**kwargs` is accepted and ignored, as in the source. -/

/-- The error the spec names `DivisionByZeroError` (Python
`ZeroDivisionError`). -/
inductive CalcError where
  | divisionByZero
deriving DecidableEq

/-- Embedding of `calculate_cash_on_cash`, mirroring the source's constants,
intermediate bindings and expression grouping. -/
def calculate_cash_on_cash (home_price rent tax_assessed_value down_payment : ℚ)
    (kwargs : List (String × String)) : Except CalcError ℚ :=
  let _ := kwargs
  let interest_rate : ℚ := 0.065 / 12
  let loan_term : ℕ := 30
  let down_payment_amount := home_price * down_payment
  let loan_amount := home_price - down_payment_amount
  let annual_property_tax := tax_assessed_value * 0.009
  if (1 + interest_rate) ^ (loan_term * 12) - 1 = 0 then
    Except.error CalcError.divisionByZero
  else
    let annual_mortgage_payment :=
      (loan_amount * (interest_rate * (1 + interest_rate) ^ (loan_term * 12))
        / ((1 + interest_rate) ^ (loan_term * 12) - 1)) * 12
    let management_fee := rent * 0.1 * 12
    let cash_flow := rent * 12
    if down_payment_amount = 0 then
      Except.error CalcError.divisionByZero
    else
      Except.ok ((cash_flow - annual_property_tax - annual_mortgage_payment
        - management_fee) / down_payment_amount)

/-- The closed-form formula of spec §4.4, written from the spec's own steps:
`down_payment_amount = home_price * down_payment`,
`loan_amount = home_price - down_payment_amount`, `monthly_rate = 0.065/12`,
`n = 360`, and
`cash_on_cash = (rent*12 - annual_property_tax - annual_mortgage_payment -
annual_management_fee) / down_payment_amount`. -/
def cash_on_cash_spec (home_price rent tax_assessed_value down_payment : ℚ) : ℚ :=
  (rent * 12 - tax_assessed_value * 0.009
    - (home_price - home_price * down_payment) * (0.065 / 12)
        * (1 + 0.065 / 12) ^ (360 : ℕ) / ((1 + 0.065 / 12) ^ (360 : ℕ) - 1) * 12
    - rent * 12 * 0.1) / (home_price * down_payment)

/-- The amortization denominator is never zero: the monthly rate is positive,
so `(1+r)^360 > 1`. -/
theorem mortgage_denominator_ne_zero :
    ((1 + 0.065 / 12 : ℚ)) ^ (30 * 12) - 1 ≠ 0 := by
  have h1 : (1 : ℚ) < 1 + 0.065 / 12 := by norm_num
  have h2 : (1 : ℚ) < (1 + 0.065 / 12) ^ (30 * 12) :=
    one_lt_pow₀ h1 (by norm_num)
  exact sub_ne_zero.mpr (ne_of_gt h2)

/-! ## Helper lemmas about `qlookup` -/

theorem qlookup_append_some {b : List (String × String)} {k : String}
    {v : String} (a : List (String × String)) (h : qlookup b k = Option.some v) :
    qlookup (a ++ b) k = Option.some v := by
  induction a with
  | nil => simpa using h
  | cons p rest ih => simp [qlookup, ih]

theorem qlookup_append_none {b : List (String × String)} {k : String}
    (a : List (String × String)) (h : qlookup b k = Option.none) :
    qlookup (a ++ b) k = qlookup a k := by
  induction a with
  | nil => simpa using h
  | cons p rest ih => simp [qlookup, ih]

theorem qlookup_map_const_cases (l : List String) (t v : String) :
    qlookup (l.map (fun x => (x, v))) t = Option.none ∨
    qlookup (l.map (fun x => (x, v))) t = Option.some v := by
  induction l with
  | nil => exact Or.inl rfl
  | cons u rest ih =>
    simp only [List.map_cons, qlookup]
    rcases ih with h | h
    · rw [h]
      by_cases hu : u = t <;> simp [hu]
    · rw [h]
      exact Or.inr rfl

theorem qlookup_map_const_of_mem {l : List String} {t : String}
    (v : String) (h : t ∈ l) :
    qlookup (l.map (fun x => (x, v))) t = Option.some v := by
  induction l with
  | nil => cases h
  | cons u rest ih =>
    rcases List.mem_cons.mp h with h1 | h2
    · subst h1
      simp only [List.map_cons, qlookup]
      rcases qlookup_map_const_cases rest t v with hq | hq <;> simp [hq]
    · simp only [List.map_cons, qlookup, ih h2]

theorem qlookup_map_const_of_not_mem {l : List String} {t : String}
    (v : String) (h : t ∉ l) :
    qlookup (l.map (fun x => (x, v))) t = Option.none := by
  induction l with
  | nil => rfl
  | cons u rest ih =>
    have hu : u ≠ t := fun he => h (he ▸ List.mem_cons_self u rest)
    have ht : t ∉ rest := fun hm => h (List.mem_cons_of_mem u hm)
    simp [qlookup, ih ht, hu]

theorem qlookup_eq_none_of_forall {q : List (String × String)} {k : String}
    (h : ∀ p ∈ q, p.1 ≠ k) : qlookup q k = Option.none := by
  induction q with
  | nil => rfl
  | cons p rest ih =>
    have hp : p.1 ≠ k := h p (List.mem_cons_self p rest)
    have hr : ∀ p2 ∈ rest, p2.1 ≠ k := fun p2 hm => h p2 (List.mem_cons_of_mem p hm)
    simp [qlookup, ih hr, hp]

/-- Central lemma: in the outgoing query, a key bound in `types` reads
`"true"`, and one of the seven flags not in `types` reads `"false"`, as long
as `kwargs` does not rebind it. -/
theorem querystring_lookup_of_mem_types {location : String}
    {types : List String} {kwargs : List (String × String)} {t : String}
    (hkw : ∀ p ∈ kwargs, p.1 ≠ t) (h : t ∈ types) :
    qlookup (querystring location types kwargs) t = Option.some "true" := by
  have hkwn : qlookup kwargs t = Option.none := qlookup_eq_none_of_forall hkw
  have htrue : qlookup (types.map (fun x => (x, "true"))) t = Option.some "true" :=
    qlookup_map_const_of_mem "true" h
  have hpt : qlookup (property_types types) t = Option.some "true" :=
    qlookup_append_some _ htrue
  have hmid : qlookup (property_types types ++ kwargs) t = Option.some "true" := by
    rw [qlookup_append_none _ hkwn]
    exact hpt
  unfold querystring
  rw [List.append_assoc] at *
  exact qlookup_append_some _ hmid

theorem querystring_lookup_flag_not_mem {location : String}
    {types : List String} {kwargs : List (String × String)} {f : String}
    (hkw : ∀ p ∈ kwargs, p.1 ≠ f) (hf : f ∈ sevenFlags) (h : f ∉ types) :
    qlookup (querystring location types kwargs) f = Option.some "false" := by
  have hkwn : qlookup kwargs f = Option.none := qlookup_eq_none_of_forall hkw
  have hnone : qlookup (types.map (fun x => (x, "true"))) f = Option.none :=
    qlookup_map_const_of_not_mem "true" h
  have hfalse : qlookup (sevenFlags.map (fun x => (x, "false"))) f = Option.some "false" :=
    qlookup_map_const_of_mem "false" hf
  have hpt : qlookup (property_types types) f = Option.some "false" := by
    unfold property_types
    rw [qlookup_append_none _ hnone]
    exact hfalse
  have hmid : qlookup (property_types types ++ kwargs) f = Option.some "false" := by
    rw [qlookup_append_none _ hkwn]
    exact hpt
  unfold querystring
  rw [List.append_assoc]
  exact qlookup_append_some _ hmid

/-! ## Claim theorems -/

/-- C1: for every conversation state whose last message is an assistant
message, the routing step returns the terminal node `"__end__"` iff that
message's tool-call list is empty, and returns `"tools"` when it is
non-empty. -/
theorem route_model_output_end_iff_no_tool_calls (state : State)
    (content : String) (tool_calls : List ToolCall)
    (h : state.messages.getLast? = Option.some (Message.ai content tool_calls)) :
    (route_model_output state = Except.ok "__end__" ↔ tool_calls = []) ∧
    (tool_calls ≠ [] → route_model_output state = Except.ok "tools") := by
  have hroute : route_model_output state =
      if tool_calls = [] then Except.ok "__end__" else Except.ok "tools" := by
    unfold route_model_output
    rw [h]
  rw [hroute]
  by_cases he : tool_calls = [] <;> simp [he]

theorem route_model_output_end_iff_no_tool_calls_witness :
    (route_model_output (State.mk [Message.human "hi", Message.ai "done" []]) =
        Except.ok "__end__" ↔ ([] : List ToolCall) = []) ∧
    (([] : List ToolCall) ≠ [] →
      route_model_output (State.mk [Message.human "hi", Message.ai "done" []]) =
        Except.ok "tools") :=
  route_model_output_end_iff_no_tool_calls _ "done" [] rfl

/-- C6: when the last message is not a well-formed assistant message, the
routing step raises `MalformedModelOutput` and routes to neither `"tools"`
nor `"__end__"`. -/
theorem route_model_output_malformed_raises (state : State) (m : Message)
    (h : state.messages.getLast? = Option.some m)
    (hm : ∀ content tool_calls, m ≠ Message.ai content tool_calls) :
    route_model_output state = Except.error RouteError.malformedModelOutput ∧
    route_model_output state ≠ Except.ok "tools" ∧
    route_model_output state ≠ Except.ok "__end__" := by
  unfold route_model_output
  rw [h]
  cases m with
  | ai c t => exact absurd rfl (hm c t)
  | human c => refine ⟨rfl, by simp, by simp⟩
  | system c => refine ⟨rfl, by simp, by simp⟩
  | toolResult c => refine ⟨rfl, by simp, by simp⟩

theorem route_model_output_malformed_raises_witness :
    route_model_output (State.mk [Message.ai "x" [], Message.toolResult "r"]) =
      Except.error RouteError.malformedModelOutput ∧
    route_model_output (State.mk [Message.ai "x" [], Message.toolResult "r"]) ≠
      Except.ok "tools" ∧
    route_model_output (State.mk [Message.ai "x" [], Message.toolResult "r"]) ≠
      Except.ok "__end__" :=
  route_model_output_malformed_raises _ (Message.toolResult "r") rfl
    (fun _ _ he => Message.noConfusion he)

/-- C2: for a requested subset of the seven enumerated flags (the default
`("isSingleFamily",)` included), the outgoing query binds exactly the
requested flags to `"true"` and every other of the seven to `"false"`,
provided the extra query parameters do not rebind a flag. -/
theorem querystring_sets_exactly_requested_flags (location : String)
    (types : List String) (kwargs : List (String × String)) (f : String)
    (htypes : ∀ t ∈ types, t ∈ sevenFlags)
    (hkw : ∀ p ∈ kwargs, p.1 ∉ sevenFlags)
    (hf : f ∈ sevenFlags) :
    qlookup (querystring location types kwargs) f =
      Option.some (if f ∈ types then "true" else "false") ∧
    qlookup (querystring location defaultTypes kwargs) f =
      Option.some (if f = "isSingleFamily" then "true" else "false") := by
  have hkwf : ∀ p ∈ kwargs, p.1 ≠ f := fun p hp he => hkw p hp (he ▸ hf)
  constructor
  · by_cases hmem : f ∈ types
    · rw [if_pos hmem]
      exact querystring_lookup_of_mem_types hkwf hmem
    · rw [if_neg hmem]
      exact querystring_lookup_flag_not_mem hkwf hf hmem
  · by_cases hsf : f = "isSingleFamily"
    · rw [if_pos hsf]
      exact querystring_lookup_of_mem_types hkwf (by simp [defaultTypes, hsf])
    · rw [if_neg hsf]
      refine querystring_lookup_flag_not_mem hkwf hf ?_
      simp [defaultTypes, hsf]

theorem querystring_sets_exactly_requested_flags_witness :
    (qlookup (querystring "San Francisco, CA" ["isCondo", "isLotLand"]
        [("limit", "5")]) "isCondo" =
      Option.some (if "isCondo" ∈ ["isCondo", "isLotLand"] then "true" else "false") ∧
    qlookup (querystring "San Francisco, CA" defaultTypes [("limit", "5")]) "isCondo" =
      Option.some (if "isCondo" = "isSingleFamily" then "true" else "false")) :=
  querystring_sets_exactly_requested_flags "San Francisco, CA"
    ["isCondo", "isLotLand"] [("limit", "5")] "isCondo"
    (by decide) (by decide) (by decide)

/-- C8: caller-supplied extra keyword arguments are merged after the computed
entries, so any key they bind — a flag name, `"location"` or `"output"`
included — reads the caller-supplied value in the outgoing query. -/
theorem kwargs_override_computed_query (location : String) (types : List String)
    (kwargs : List (String × String)) (k v : String)
    (h : qlookup kwargs k = Option.some v) :
    qlookup (querystring location types kwargs) k = Option.some v := by
  unfold querystring
  exact qlookup_append_some _ h

theorem kwargs_override_computed_query_witness :
    qlookup (querystring "Austin, TX" ["isCondo"] [("isCondo", "false")])
      "isCondo" = Option.some "false" :=
  kwargs_override_computed_query "Austin, TX" ["isCondo"] [("isCondo", "false")]
    "isCondo" "false" (by decide)

/-- C9: every element of the `types` iterable is bound to `"true"` in the
query, with no validation against the seven enumerated flags; in particular a
bare string passed as `types` is iterated character by character, making each
of its characters a query key bound to `"true"`. -/
theorem unvalidated_types_set_true :
    (∀ (location : String) (types : List String) (t : String), t ∈ types →
      qlookup (querystring location types []) t = Option.some "true") ∧
    (∀ (location s : String) (c : Char), c ∈ s.data →
      qlookup (querystring location (pyStringElements s) []) (String.mk [c]) =
        Option.some "true") := by
  have main : ∀ (location : String) (types : List String) (t : String),
      t ∈ types → qlookup (querystring location types []) t = Option.some "true" := by
    intro loc types t ht
    exact querystring_lookup_of_mem_types (fun p hp => absurd hp (List.not_mem_nil p)) ht
  refine ⟨main, fun loc s c hc => main loc _ _ ?_⟩
  exact List.mem_map_of_mem (fun c => String.mk [c]) hc

theorem unvalidated_types_set_true_witness :
    qlookup (querystring "Boise, ID" ["bogusType"] []) "bogusType" =
      Option.some "true" ∧
    qlookup (querystring "Boise, ID" (pyStringElements "ab") []) (String.mk ['a']) =
      Option.some "true" :=
  ⟨unvalidated_types_set_true.1 "Boise, ID" ["bogusType"] "bogusType" (by decide),
   unvalidated_types_set_true.2 "Boise, ID" "ab" 'a' (by decide)⟩

/-- C4: with configured limit `k` and an upstream `results` array of length at
least `k`, the search returns exactly `k` records, the first `k` of the
array in upstream order. -/
theorem search_truncates_to_first_k (α : Type) (location : String)
    (types : List String) (kwargs : List (String × String)) (key : String)
    (results : List α) (k : Nat) (h : k ≤ results.length) :
    ∃ out, search_for_properties_by_location α location types kwargs
        (Option.some key) (Except.ok (Option.some results)) k = Except.ok out ∧
      out.length = k ∧ ∀ i, i < k → out[i]? = results[i]? := by
  refine ⟨results.take k, rfl, ?_, ?_⟩
  · rw [List.length_take]
    exact Nat.min_eq_left h
  · intro i hi
    exact List.getElem?_take_of_lt hi

theorem search_truncates_to_first_k_witness :
    ∃ out, search_for_properties_by_location Nat "Denver, CO" defaultTypes []
        (Option.some "KEY") (Except.ok (Option.some [10, 20, 30])) 2 =
        Except.ok out ∧
      out.length = 2 ∧ ∀ i, i < 2 → out[i]? = [10, 20, 30][i]? :=
  search_truncates_to_first_k Nat "Denver, CO" defaultTypes [] "KEY"
    [10, 20, 30] 2 (by decide)

/-- C7 counterexample: with an API key present in the environment (valid or
not — the code never checks), an upstream body without `results` yields
`UpstreamSchemaError`, not `AuthConfigurationError`; so `AuthConfigurationError`
does not cover the invalid-key case. -/
theorem search_present_key_not_auth_error :
    search_for_properties_by_location Nat "San Francisco, CA" defaultTypes []
        (Option.some "invalid-key") (Except.ok Option.none) 10 =
      Except.error SearchError.upstreamSchema ∧
    (Except.error SearchError.upstreamSchema :
        Except SearchError (List Nat)) ≠
      Except.error SearchError.authConfiguration :=
  ⟨rfl, by simp⟩

/-- C7 (amended): the search fails with `AuthConfigurationError` exactly when
the environment's API key is missing, with `TransportError` exactly on
network failure, and with `UpstreamSchemaError` exactly when the parsed
response lacks `results` (which is how a present-but-invalid key surfaces);
these are the only error outcomes. -/
theorem search_error_taxonomy (α : Type) (location : String)
    (types : List String) (kwargs : List (String × String))
    (apiKey : Option String) (net : Except Unit (Option (List α))) (limit : Nat) :
    (search_for_properties_by_location α location types kwargs apiKey net limit =
        Except.error SearchError.authConfiguration ↔ apiKey = Option.none) ∧
    (search_for_properties_by_location α location types kwargs apiKey net limit =
        Except.error SearchError.transport ↔
      apiKey ≠ Option.none ∧ net = Except.error ()) ∧
    (search_for_properties_by_location α location types kwargs apiKey net limit =
        Except.error SearchError.upstreamSchema ↔
      apiKey ≠ Option.none ∧ net = Except.ok Option.none) ∧
    ((∃ out, search_for_properties_by_location α location types kwargs apiKey
        net limit = Except.ok out) ↔
      apiKey ≠ Option.none ∧ ∃ rs, net = Except.ok (Option.some rs)) := by
  rcases apiKey with _ | key
  · simp [search_for_properties_by_location]
  · rcases net with e | body
    · cases e
      simp [search_for_properties_by_location]
    · rcases body with _ | rs
      · simp [search_for_properties_by_location]
      · simp [search_for_properties_by_location]

/-- C3: for positive inputs with `down_payment` in `(0,1)`, the calculator
returns exactly the closed-form value of spec §4.4. -/
theorem calculate_cash_on_cash_matches_spec_formula
    (home_price rent tax_assessed_value down_payment : ℚ)
    (h1 : 0 < home_price) (h2 : 0 < rent) (h3 : 0 < tax_assessed_value)
    (h4 : 0 < down_payment) (h5 : down_payment < 1) :
    calculate_cash_on_cash home_price rent tax_assessed_value down_payment [] =
      Except.ok (cash_on_cash_spec home_price rent tax_assessed_value down_payment) := by
  have hdpa : home_price * down_payment ≠ 0 := ne_of_gt (mul_pos h1 h4)
  simp only [calculate_cash_on_cash]
  rw [if_neg mortgage_denominator_ne_zero, if_neg hdpa]
  rw [Except.ok.injEq, cash_on_cash_spec]
  norm_num
  ring

theorem calculate_cash_on_cash_matches_spec_formula_witness :
    calculate_cash_on_cash 500000 3000 400000 0.2 [] =
      Except.ok (cash_on_cash_spec 500000 3000 400000 0.2) :=
  calculate_cash_on_cash_matches_spec_formula 500000 3000 400000 0.2
    (by norm_num) (by norm_num) (by norm_num) (by norm_num) (by norm_num)

/-- C5: with `down_payment = 0` the down-payment amount is zero, and the
final division raises the error the spec names `DivisionByZeroError`. -/
theorem calculate_cash_on_cash_zero_down_payment_errors
    (home_price rent tax_assessed_value : ℚ) (kwargs : List (String × String)) :
    calculate_cash_on_cash home_price rent tax_assessed_value 0 kwargs =
      Except.error CalcError.divisionByZero := by
  simp only [calculate_cash_on_cash]
  rw [if_neg mortgage_denominator_ne_zero, if_pos (mul_zero home_price)]

/-- C10: the calculator is a pure function of its four numeric inputs: two
calls with identical inputs agree, whatever extra keyword arguments are
supplied. -/
theorem calculate_cash_on_cash_deterministic
    (home_price rent tax_assessed_value down_payment : ℚ)
    (kwargs1 kwargs2 : List (String × String)) :
    calculate_cash_on_cash home_price rent tax_assessed_value down_payment kwargs1 =
      calculate_cash_on_cash home_price rent tax_assessed_value down_payment kwargs2 :=
  rfl

end Realzen
